import Mathlib

/-!
Shallow embedding of `slash/reporting/console_reporter.py` (the console
reporter of the slash test framework) together with proofs about its
verbosity-gated rendering behaviour.

The reporter consumes session / file / test lifecycle events and writes
styled text chunks to a `py.io.TerminalWriter`.  The terminal writer is an
external collaborator; we model its three operations (`write`, `line`,
`sep`) as constructors of an output-chunk type `Out`, so every reporter
method becomes a pure function returning the list of chunks it emits (and,
for the stateful methods, the updated reporter state).
-/

set_option autoImplicit false

namespace ConsoleReporter

/-- Modelled from the spec: the verbosity levels come from `slash/log.py`
(`from ..log import VERBOSITIES`), which is not under `src/`.  The spec
describes them as an ordered enumeration in which thresholds "stricter than
WARNING" are "numerically greater", and concise mode sits strictly between
ERROR and CRITICAL, so the only facts relied upon are
`WARNING < ERROR < CRITICAL` (logbook-style small integers are used). -/
def VERBOSITIES.DEBUG : Nat := 1

def VERBOSITIES.INFO : Nat := 2

def VERBOSITIES.NOTICE : Nat := 3

def VERBOSITIES.WARNING : Nat := 4

def VERBOSITIES.ERROR : Nat := 5

def VERBOSITIES.CRITICAL : Nat := 6

/-- Styling keyword arguments accepted by the terminal writer
(`bold=True`, `red=True`, ...).  Absent keywords default to `false`. -/
structure Style where
  bold : Bool := false
  red : Bool := false
  green : Bool := false
  yellow : Bool := false
  white : Bool := false
  cyan : Bool := false
  blink : Bool := false
  deriving DecidableEq, Repr

/-- One output chunk sent to the `TerminalWriter` collaborator:
`write s st` is `terminal.write(s, **st)`, `line s st` is
`terminal.line(s, **st)` (text plus a line break), and `sep c t st` is
`terminal.sep(c, t, **st)` (a separator rule drawn with `c`, optionally
titled `t`). -/
inductive Out where
  | write (s : String) (st : Style)
  | line (s : String) (st : Style)
  | sep (c : String) (title : Option String) (st : Style)
  deriving DecidableEq, Repr

/-- Plain text carried by a chunk (the separator's decoration is the
terminal writer's own; its title is the text the reporter supplied). -/
def Out.text : Out → String
  | .write s _ => s
  | .line s _ => s ++ "\n"
  | .sep _ t _ => t.getD ""

/-- Concatenated text of a chunk list. -/
def textOf (os : List Out) : String :=
  String.join (os.map Out.text)

/-- One stack level of a distilled traceback: source position, the single
faulting code line, the full multi-line excerpt, and the rendered local /
global variable snapshots (`name ↦ {"value": renderedString}`, modelled as
insertion-ordered association lists carrying the rendered value). -/
structure Frame where
  filename : String
  lineno : Nat
  code_line : String
  code_string : String
  locals : List (String × String)
  globals : List (String × String)
  deriving DecidableEq, Repr

/-- A captured traceback: its ordered frame sequence (outermost first). -/
structure Traceback where
  frames : List Frame
  deriving DecidableEq, Repr

/-- An error or failure record: message plus optional traceback. -/
structure ErrorRecord where
  message : String
  traceback : Option Traceback
  deriving DecidableEq, Repr

/-- Test metadata; the reporter only uses its fully-qualified name. -/
structure TestMetadata where
  fqn : String
  deriving DecidableEq, Repr

/-- Modelled from the spec: the per-test result collaborator (slash's
result aggregation is not under `src/`): an optional test identifier, and
the lists of error and failure records. -/
structure TestResult where
  test_metadata : Option TestMetadata
  errors : List ErrorRecord
  failures : List ErrorRecord
  deriving DecidableEq, Repr

def TestResult.get_errors (r : TestResult) : List ErrorRecord :=
  r.errors

def TestResult.get_failures (r : TestResult) : List ErrorRecord :=
  r.failures

/-- Modelled from the spec: the session results collaborator, exposing
`iter_all_results`, grouped failure/error iterators, the two counts and
`is_success` (true exactly when there are zero failures and zero errors). -/
structure SessionResults where
  results : List TestResult
  deriving DecidableEq, Repr

def SessionResults.iter_all_results (rs : SessionResults) : List TestResult :=
  rs.results

def SessionResults.get_num_failures (rs : SessionResults) : Nat :=
  (rs.results.map fun r => r.failures.length).sum

def SessionResults.get_num_errors (rs : SessionResults) : Nat :=
  (rs.results.map fun r => r.errors.length).sum

def SessionResults.is_success (rs : SessionResults) : Bool :=
  rs.get_num_failures == 0 && rs.get_num_errors == 0

/-- Modelled from the spec: `iter_all_failures` yields `(result, failures)`
pairs grouped by result, for the results that have failures. -/
def SessionResults.iter_all_failures (rs : SessionResults) :
    List (TestResult × List ErrorRecord) :=
  rs.results.filterMap fun r =>
    if r.failures.isEmpty then none else some (r, r.failures)

/-- Modelled from the spec: `iter_all_errors`, symmetric to
`iter_all_failures`. -/
def SessionResults.iter_all_errors (rs : SessionResults) :
    List (TestResult × List ErrorRecord) :=
  rs.results.filterMap fun r =>
    if r.errors.isEmpty then none else some (r, r.errors)

/-- The session collaborator: aggregated results and elapsed duration in
seconds.  Python hands the duration around as a number; it is modelled
exactly as a rational. -/
structure Session where
  results : SessionResults
  duration : ℚ
  deriving DecidableEq

/-- Reporter state: the verbosity threshold fixed at construction and the
two per-file transient flags. -/
structure Reporter where
  level : Nat
  file_failed : Bool
  file_has_skips : Bool
  deriving DecidableEq, Repr

/-- The `slash.utils.iteration.iteration` helper, modelled from the spec's
description: it decorates each element with its `first` and `last` flags
(`(first, last, element)`). -/
def iterFlags {α : Type} : Bool → List α → List (Bool × Bool × α)
  | _, [] => []
  | first, [x] => [(first, true, x)]
  | first, x :: y :: rest => (first, false, x) :: iterFlags false (y :: rest)

/-- Decimal digits of `n`, most significant first, by structural recursion
on an explicit fuel bound (`n + 1` recursion steps always suffice because
each step divides by 10). -/
def natDigitsAux : Nat → Nat → List Char
  | 0, _ => []
  | fuel + 1, n =>
    if n < 10 then [Nat.digitChar n]
    else natDigitsAux fuel (n / 10) ++ [Nat.digitChar (n % 10)]

/-- Python's decimal digits of a natural number (`str(n)` for `n ≥ 0`). -/
def natDigits (n : Nat) : List Char :=
  natDigitsAux (n + 1) n

/-- Python's `str(n)` for a natural number. -/
def natDecimal (n : Nat) : String :=
  String.mk (natDigits n)

/-- Python's `str(i)` for an integer. -/
def intDecimal (i : Int) : String :=
  if i < 0 then "-" ++ natDecimal i.natAbs else natDecimal i.toNat

/-- Python's `"{0:02}".format(i)`: zero-pad the decimal rendering to at
least two characters (a one-character rendering gains a leading `0`; wider
renderings, e.g. three-digit hour counts, are never truncated). -/
def pad02 (i : Int) : String :=
  let s := intDecimal i
  if s.length < 2 then "0" ++ s else s

/-- Python's `int(q)` (truncation toward zero). -/
def pyInt (q : ℚ) : Int :=
  if 0 ≤ q then ⌊q⌋ else ⌈q⌉

/-- Python's `a % b`: `a - b * floor(a / b)`. -/
def pyMod (a b : ℚ) : ℚ :=
  a - b * ⌊a / b⌋

/-- Character-level split on `'\n'`; always returns at least one
fragment, like Python's `str.split` on a separator. -/
def splitNL : List Char → List (List Char)
  | [] => [[]]
  | c :: rest =>
    match splitNL rest with
    | [] => [[c]]
    | l :: ls => if c = '\n' then [] :: l :: ls else (c :: l) :: ls

/-- Python's `str.splitlines` restricted to `"\n"` line breaks (the only
break the reporter's code excerpts contain): split on `"\n"`, discarding
the empty fragment a trailing line break would produce. -/
def splitlines (s : String) : List String :=
  let parts := (splitNL s.data).map String.mk
  if parts.getLast? = some "" then parts.dropLast else parts

/-- Python's `"".join(itertools.takewhile(str.isspace, s))`: the longest
whitespace prefix of `s`. -/
def takewhileIsspace (s : String) : String :=
  String.mk (s.data.takeWhile Char.isWhitespace)

/-- `ConsoleReporter._format_duration`, line by line:
`seconds = duration % 60; duration /= 60; minutes = duration % 60;`
`hours = duration / 60;` then `"{0:02}:{1:02}:{2:02}"` of the
`int(...)` of the three values. -/
def format_duration (duration : ℚ) : String :=
  let seconds := pyMod duration 60
  let duration := duration / 60
  let minutes := pyMod duration 60
  let hours := duration / 60
  pad02 (pyInt hours) ++ ":" ++ pad02 (pyInt minutes) ++ ":" ++ pad02 (pyInt seconds)

/-- `ConsoleReporter._get_location`:
`str(result.test_metadata.fqn) if result.test_metadata else "**global**"`. -/
def get_location (result : TestResult) : String :=
  match result.test_metadata with
  | some md => md.fqn
  | none => "**global**"

/-- `ConsoleReporter._write_frame_locals`, gated by
`@from_verbosity(VERBOSITIES.WARNING)`: nothing unless
`level <= WARNING`; nothing if the frame has neither locals nor globals;
otherwise the chained `locals` then `globals` entries, comma-separated,
each as `name: ` (cyan, blinking) followed by the rendered value, ended by
a double line break. -/
def write_frame_locals (level : Nat) (frame : Frame) : List Out :=
  if level ≤ VERBOSITIES.WARNING then
    if frame.locals.isEmpty && frame.globals.isEmpty then []
    else
      ((frame.locals ++ frame.globals).enum.flatMap fun p =>
        (if 0 < p.1 then [Out.write ", " {}] else []) ++
        [Out.write (p.2.1 ++ ": ") { cyan := true, blink := true },
         Out.write p.2.2 {}]) ++
      [Out.write "\n\n" {}]
  else []

/-- `ConsoleReporter._write_frame_code`: nothing when `frame.code_string`
is empty (Python truthiness of the string); otherwise the chosen code
lines — the full excerpt's lines when `level <= WARNING`, else just
`[frame.code_line]` — each prefixed by `" "`, except the last prefixed by
`">"` (white, bold), the line itself white and bold, then a line break. -/
def write_frame_code (level : Nat) (frame : Frame) : List Out :=
  if frame.code_string ≠ "" then
    let code_lines :=
      if level ≤ VERBOSITIES.WARNING then splitlines frame.code_string
      else [frame.code_line]
    (iterFlags true code_lines).flatMap fun t =>
      (if t.2.1 then [Out.write ">" { white := true, bold := true }]
       else [Out.write " " {}]) ++
      [Out.write t.2.2 { white := true, bold := true }, Out.write "\n" {}]
  else []

/-- Body of `_report_error`'s frame loop, minus the leading separator: the
locals block, the code block, on the last frame the marker line — note the
source's local variable `line` is (re)bound to `""` just before
`_write_frame_code(frame)` is called and `_write_frame_code` keeps its own
`line` variable, so `"".join(itertools.takewhile(str.isspace, line))`
always operates on the empty string — and finally
`"{0}:{1}:\n".format(frame.filename, frame.lineno)`. -/
def report_error_frame (level : Nat) (error : ErrorRecord) (marker : String)
    (last : Bool) (frame : Frame) : List Out :=
  let line := ""
  write_frame_locals level frame ++
  write_frame_code level frame ++
  (if last then
    [Out.write marker { red := true, bold := true },
     Out.write (takewhileIsspace line) {},
     Out.write error.message { red := true, bold := true },
     Out.write "\n" {}]
   else []) ++
  [Out.write (frame.filename ++ ":" ++ natDecimal frame.lineno ++ ":\n") {}]

/-- The frame loop of `_report_error`: each frame but the first is
preceded by `sep("- ")`, then the frame body. -/
def report_error_loop (level : Nat) (error : ErrorRecord) (marker : String)
    (frames : List Frame) : List Out :=
  (iterFlags true frames).flatMap fun t =>
    (if !t.1 then [Out.sep "- " none {}] else []) ++
    report_error_frame level error marker t.2.1 t.2.2

/-- `ConsoleReporter._report_error`: frame selection (`[]` without a
traceback; `[frames[-1]]` when `level > WARNING` — slash tracebacks carry
at least one frame, so the empty-frames fallback is unreachable; all
frames otherwise) followed by the frame loop. -/
def report_error (level : Nat) (error : ErrorRecord) (marker : String) :
    List Out :=
  let frames : List Frame :=
    match error.traceback with
    | none => []
    | some tb =>
      if VERBOSITIES.WARNING < level then
        match tb.frames.getLast? with
        | some f => [f]
        | none => []
      else tb.frames
  report_error_loop level error marker frames

/-- `ConsoleReporter._report_error_objects`: the unconditional
`sep("=", title)` header, then for every yielded `(result, errors)` pair
and every error in it, `sep("_", location)` followed by the error's
detailed rendering. -/
def report_error_objects (level : Nat) (title : String)
    (iterator : List (TestResult × List ErrorRecord)) (marker : String) :
    List Out :=
  Out.sep "=" (some title) {} ::
  iterator.flatMap fun p =>
    p.2.flatMap fun error =>
      Out.sep "_" (some (get_location p.1)) {} ::
      report_error level error marker

/-- `ConsoleReporter._report_failures`. -/
def report_failures (level : Nat) (session : Session) : List Out :=
  report_error_objects level "FAILURES" session.results.iter_all_failures "F"

/-- `ConsoleReporter._report_errors`. -/
def report_errors (level : Nat) (session : Session) : List Out :=
  report_error_objects level "ERRORS" session.results.iter_all_errors "E"

/-- Loop body of `_report_failures_and_errors_concise` for one result:
`if result.get_errors() or result.get_failures():` write the location,
`":"`, the ` {n} errors` clause when there are errors, the ` {m} failures`
clause when there are failures, and a line break. -/
def concise_result (result : TestResult) : List Out :=
  if !result.get_errors.isEmpty || !result.get_failures.isEmpty then
    [Out.write (get_location result) {}, Out.write ":" {}] ++
    (if !result.get_errors.isEmpty then
      [Out.write (" " ++ natDecimal result.get_errors.length ++ " errors") {}]
     else []) ++
    (if !result.get_failures.isEmpty then
      [Out.write (" " ++ natDecimal result.get_failures.length ++ " failures") {}]
     else []) ++
    [Out.write "\n" {}]
  else []

/-- `ConsoleReporter._report_failures_and_errors_concise`: the per-result
body over `iter_all_results()`. -/
def report_failures_and_errors_concise (session : Session) : List Out :=
  session.results.iter_all_results.flatMap concise_result

/-- The closing `terminal.sep("=", msg, **kwargs)` of `report_session_end`:
`msg` starts as `"Session ended."`, `kwargs` as `bold`; on success `green`
is added, otherwise `red` is added and
`" {0} failures, {1} errors."` with the two counts is appended; finally
`" Total duration: {0}"` with the formatted duration is appended. -/
def session_end_sep (session : Session) : Out :=
  let msg := "Session ended."
  let msg :=
    if session.results.is_success then msg
    else
      msg ++ " " ++ natDecimal session.results.get_num_failures ++
      " failures, " ++ natDecimal session.results.get_num_errors ++ " errors."
  let msg := msg ++ " Total duration: " ++ format_duration session.duration
  if session.results.is_success then
    Out.sep "=" (some msg) { bold := true, green := true }
  else
    Out.sep "=" (some msg) { bold := true, red := true }

/-- `ConsoleReporter.report_session_end`: a line break first when
`level > WARNING` (to break the dot sequence), then either the detailed
FAILURES / ERRORS sections (`level <= ERROR`) or the concise listing
(`level <= CRITICAL`), then the closing separator. -/
def report_session_end (level : Nat) (session : Session) : List Out :=
  (if VERBOSITIES.WARNING < level then [Out.write "\n" {}] else []) ++
  (if level ≤ VERBOSITIES.ERROR then
    report_failures level session ++ report_errors level session
   else if level ≤ VERBOSITIES.CRITICAL then
    report_failures_and_errors_concise session
   else []) ++
  [session_end_sep session]

/-- `ConsoleReporter.report_session_start`, gated by
`@from_verbosity(VERBOSITIES.ERROR)`. -/
def report_session_start (level : Nat) : List Out :=
  if level ≤ VERBOSITIES.ERROR then
    [Out.sep "=" (some "Session starts") { white := true, bold := true }]
  else []

/-- `ConsoleReporter.report_file_start`, gated by
`@from_verbosity(VERBOSITIES.WARNING)`: reset both per-file flags, write
the filename and a space. -/
def report_file_start (r : Reporter) (filename : String) :
    Reporter × List Out :=
  if r.level ≤ VERBOSITIES.WARNING then
    ({ r with file_failed := false, file_has_skips := false },
     [Out.write filename {}, Out.write " " {}])
  else (r, [])

/-- `ConsoleReporter.report_file_end`, gated by
`@from_verbosity(VERBOSITIES.WARNING)`: write two spaces, then
`line("FAIL", red)` if the file failed, else `line("PASS", yellow)` if it
had skips, else `line("PASS", green)`. -/
def report_file_end (r : Reporter) (_filename : String) :
    Reporter × List Out :=
  if r.level ≤ VERBOSITIES.WARNING then
    (r,
     [Out.write "  " {},
      if r.file_failed then Out.line "FAIL" { red := true }
      else if r.file_has_skips then Out.line "PASS" { yellow := true }
      else Out.line "PASS" { green := true }])
  else (r, [])

/-- `ConsoleReporter.report_test_success`: write `"."`. -/
def report_test_success (r : Reporter) : Reporter × List Out :=
  (r, [Out.write "." {}])

/-- `ConsoleReporter.report_test_skip`: write `"s"` (yellow) and set
`_file_has_skips`. -/
def report_test_skip (r : Reporter) : Reporter × List Out :=
  ({ r with file_has_skips := true }, [Out.write "s" { yellow := true }])

/-- `ConsoleReporter.report_test_error`: set `_file_failed` and write
`"E"` (red). -/
def report_test_error (r : Reporter) : Reporter × List Out :=
  ({ r with file_failed := true }, [Out.write "E" { red := true }])

/-- `ConsoleReporter.report_test_failure`: set `_file_failed` and write
`"F"` (red). -/
def report_test_failure (r : Reporter) : Reporter × List Out :=
  ({ r with file_failed := true }, [Out.write "F" { red := true }])

/-- Frame sequence rendering in the spec's words, for all frames after
the first: each is preceded by the thin `sep("- ")` rule, and the body is
told whether its frame is the last one. -/
def restFramesWithSep (body : Bool → Frame → List Out) :
    List Frame → List Out
  | [] => []
  | g :: rest =>
    Out.sep "- " none {} :: (body rest.isEmpty g ++ restFramesWithSep body rest)

/-- Frame sequence rendering in the spec's words: every frame in order
(outermost first), each frame after the first preceded by the thin
separator rule, the body told whether its frame is the last rendered
one. -/
def framesOutermostFirst (body : Bool → Frame → List Out) :
    List Frame → List Out
  | [] => []
  | f :: rest => body rest.isEmpty f ++ restFramesWithSep body rest

/- ------------------------------------------------------------------ -/
/- Helper lemmas -/
/- ------------------------------------------------------------------ -/

theorem iterFlags_cons {α : Type} (b : Bool) (x : α) (l : List α) :
    iterFlags b (x :: l) = (b, l.isEmpty, x) :: iterFlags false l := by
  cases l <;> rfl

theorem report_error_loop_eq_framesOutermostFirst (level : Nat)
    (error : ErrorRecord) (marker : String) (frames : List Frame) :
    report_error_loop level error marker frames =
      framesOutermostFirst (report_error_frame level error marker) frames := by
  have key : ∀ (l : List Frame) (b : Bool),
      (iterFlags b l).flatMap (fun t =>
        (if !t.1 then [Out.sep "- " none {}] else []) ++
        report_error_frame level error marker t.2.1 t.2.2) =
      (if b then
        framesOutermostFirst (report_error_frame level error marker) l
       else
        restFramesWithSep (report_error_frame level error marker) l) := by
    intro l
    induction l with
    | nil => intro b; cases b <;> rfl
    | cons x rest ih =>
      intro b
      rw [iterFlags_cons, List.flatMap_cons, ih false]
      cases b <;>
        simp [framesOutermostFirst, restFramesWithSep]
  rw [report_error_loop, key frames true, if_pos rfl]

theorem digitChar_isDigit (d : Nat) (h : d < 10) :
    (Nat.digitChar d).isDigit = true := by
  interval_cases d <;> decide

theorem natDigitsAux_all_isDigit (fuel : Nat) :
    ∀ n, ∀ c ∈ natDigitsAux fuel n, c.isDigit = true := by
  induction fuel with
  | zero =>
    intro n c hc
    simp [natDigitsAux] at hc
  | succ fuel ih =>
    intro n c hc
    rw [natDigitsAux] at hc
    split at hc
    · next h =>
      rw [List.mem_singleton] at hc
      exact hc ▸ digitChar_isDigit n h
    · next h =>
      rcases List.mem_append.mp hc with hmem | hmem
      · exact ih (n / 10) c hmem
      · rw [List.mem_singleton] at hmem
        exact hmem ▸ digitChar_isDigit (n % 10) (Nat.mod_lt n (by omega))

theorem natDigits_all_isDigit (n : Nat) :
    ∀ c ∈ natDigits n, c.isDigit = true :=
  natDigitsAux_all_isDigit (n + 1) n

theorem natDecimal_all_isDigit (n : Nat) :
    ∀ c ∈ (natDecimal n).data, c.isDigit = true :=
  natDigits_all_isDigit n

theorem pad02_all (i : Int) :
    ∀ c ∈ (pad02 i).data, c.isDigit = true ∨ c = '-' := by
  have base : ∀ c ∈ (intDecimal i).data, c.isDigit = true ∨ c = '-' := by
    intro c hc
    rw [intDecimal] at hc
    split at hc
    · rw [String.data_append] at hc
      rcases List.mem_append.mp hc with hm | hm
      · right
        simpa using hm
      · exact Or.inl (natDecimal_all_isDigit _ c hm)
    · exact Or.inl (natDecimal_all_isDigit _ c hc)
  intro c hc
  rw [pad02] at hc
  split at hc
  · rw [String.data_append] at hc
    rcases List.mem_append.mp hc with hm | hm
    · left
      simp only [show ("0" : String).data = ['0'] from rfl, List.mem_singleton] at hm
      subst hm
      decide
    · exact base c hm
  · exact base c hc

theorem format_duration_all (d : ℚ) :
    ∀ c ∈ (format_duration d).data,
      c.isDigit = true ∨ c = ':' ∨ c = '-' := by
  intro c hc
  simp only [format_duration, String.data_append] at hc
  simp only [List.mem_append, List.mem_singleton] at hc
  rcases hc with ((((h | h) | h) | h) | h)
  · rcases pad02_all _ c h with h' | h'
    · exact Or.inl h'
    · exact Or.inr (Or.inr h')
  · exact Or.inr (Or.inl h)
  · rcases pad02_all _ c h with h' | h'
    · exact Or.inl h'
    · exact Or.inr (Or.inr h')
  · exact Or.inr (Or.inl h)
  · rcases pad02_all _ c h with h' | h'
    · exact Or.inl h'
    · exact Or.inr (Or.inr h')

theorem pyInt_div_sixty (q : ℚ) (hq : 0 ≤ q) :
    pyInt (q / 60) = ((⌊q⌋₊ / 60 : ℕ) : ℤ) := by
  have h0 : (0:ℚ) ≤ q / 60 := by positivity
  rw [pyInt, if_pos h0, ← Int.natCast_floor_eq_floor h0]
  norm_cast
  exact Nat.floor_div_ofNat q 60

theorem pyInt_pyMod_sixty (q : ℚ) (hq : 0 ≤ q) :
    pyInt (pyMod q 60) = ((⌊q⌋₊ % 60 : ℕ) : ℤ) := by
  have hpos : (0:ℚ) < 60 := by norm_num
  have hsub := Int.sub_floor_div_mul_nonneg q hpos
  have hnn : 0 ≤ pyMod q 60 := by
    rw [pyMod]
    nlinarith [hsub]
  rw [pyInt, if_pos hnn, pyMod]
  have hcast : (60:ℚ) * (⌊q / 60⌋ : ℚ) = ((60 * ⌊q / 60⌋ : ℤ) : ℚ) := by
    push_cast
    ring
  rw [hcast, Int.floor_sub_int]
  have hfq : ⌊q⌋ = ((⌊q⌋₊ : ℕ) : ℤ) := (Int.natCast_floor_eq_floor hq).symm
  have hfq60 : ⌊q / 60⌋ = ((⌊q⌋₊ / 60 : ℕ) : ℤ) := by
    rw [← Int.natCast_floor_eq_floor (by positivity : (0:ℚ) ≤ q / 60)]
    norm_cast
    exact Nat.floor_div_ofNat q 60
  rw [hfq, hfq60]
  omega

/- ------------------------------------------------------------------ -/
/- Claim theorems -/
/- ------------------------------------------------------------------ -/

/-- C3: the reporter is supposed to reproduce the leading whitespace of
the last printed code line between the one-character marker and the error
message.  The code does not: `_report_error` rebinds its local `line` to
`""` just before calling `_write_frame_code`, and the last printed code
line only ever lives in `_write_frame_code`'s own local, so
`"".join(itertools.takewhile(str.isspace, line))` always yields `""`.
Evaluated at a frame whose last printed code line `"    boom()"` begins
with four spaces: the chunk written between marker and message is
`write ""`, not `write "    "`. -/
theorem marker_alignment_whitespace_dropped :
    report_error 4
      { message := "AssertionError: boom",
        traceback := some { frames := [
          { filename := "t.py", lineno := 3,
            code_line := "    boom()",
            code_string := "def f():\n    boom()",
            locals := [], globals := [] }] } } "F" =
      [Out.write " " {},
       Out.write "def f():" { white := true, bold := true },
       Out.write "\n" {},
       Out.write ">" { white := true, bold := true },
       Out.write "    boom()" { white := true, bold := true },
       Out.write "\n" {},
       Out.write "F" { red := true, bold := true },
       Out.write "" {},
       Out.write "AssertionError: boom" { red := true, bold := true },
       Out.write "\n" {},
       Out.write "t.py:3:\n" {}] ∧
    takewhileIsspace "    boom()" = "    " := by
  exact ⟨by decide, by decide⟩

/-- C6 (refuted as stated): the claim quantifies over every verbosity
threshold, but at threshold ERROR — numerically greater than WARNING —
`report_file_start` is a gated no-op and does not reset the per-file
flags: starting from both flags set, both remain set. -/
theorem file_start_reset_refuted :
    ¬ ((report_file_start
          { level := VERBOSITIES.ERROR, file_failed := true,
            file_has_skips := true } "tests/test_mod.py").1.file_failed = false ∧
       (report_file_start
          { level := VERBOSITIES.ERROR, file_failed := true,
            file_has_skips := true } "tests/test_mod.py").1.file_has_skips = false) := by
  decide

/-- C6 (amended): at every verbosity threshold, each test event writes
exactly its one single-character marker (`"."`, `"s"`, `"E"`, `"F"`),
skip additionally sets `file_has_skips`, error and failure additionally
set `file_failed`; and `report_file_start` resets both flags to false
whenever the threshold is ≤ WARNING (at numerically greater thresholds
the call is a gated no-op). -/
theorem test_markers_and_flags (r : Reporter) (filename : String) :
    report_test_success r = (r, [Out.write "." {}]) ∧
    report_test_skip r =
      ({ r with file_has_skips := true }, [Out.write "s" { yellow := true }]) ∧
    report_test_error r =
      ({ r with file_failed := true }, [Out.write "E" { red := true }]) ∧
    report_test_failure r =
      ({ r with file_failed := true }, [Out.write "F" { red := true }]) ∧
    (r.level ≤ VERBOSITIES.WARNING →
      (report_file_start r filename).1.file_failed = false ∧
      (report_file_start r filename).1.file_has_skips = false) := by
  refine ⟨rfl, rfl, rfl, rfl, fun h => ?_⟩
  rw [report_file_start, if_pos h]
  exact ⟨rfl, rfl⟩

/-- Witness for the amended C6 at threshold WARNING with both flags
previously set: `report_file_start` clears both. -/
theorem test_markers_and_flags_spot :
    (report_file_start
      { level := VERBOSITIES.WARNING, file_failed := true,
        file_has_skips := true } "tests/test_mod.py").1.file_failed = false ∧
    (report_file_start
      { level := VERBOSITIES.WARNING, file_failed := true,
        file_has_skips := true } "tests/test_mod.py").1.file_has_skips = false :=
  (test_markers_and_flags
    { level := VERBOSITIES.WARNING, file_failed := true,
      file_has_skips := true } "tests/test_mod.py").2.2.2.2 (by decide)

/-- C7: when the threshold is ≤ WARNING, `report_file_end` writes two
spaces and then `FAIL` in red when the file failed (regardless of the
skip flag), else `PASS` in yellow when the file had skips, else `PASS`
in green. -/
theorem file_end_pass_fail (r : Reporter) (filename : String)
    (h : r.level ≤ VERBOSITIES.WARNING) :
    report_file_end r filename =
      (r, [Out.write "  " {},
        if r.file_failed then Out.line "FAIL" { red := true }
        else if r.file_has_skips then Out.line "PASS" { yellow := true }
        else Out.line "PASS" { green := true }]) := by
  rw [report_file_end, if_pos h]

/-- Witness for C7: a failed file with skips still renders `FAIL` red. -/
theorem file_end_pass_fail_spot :
    report_file_end
      { level := VERBOSITIES.WARNING, file_failed := true,
        file_has_skips := true } "tests/test_mod.py" =
      ({ level := VERBOSITIES.WARNING, file_failed := true,
         file_has_skips := true },
       [Out.write "  " {}, Out.line "FAIL" { red := true }]) := by
  rw [file_end_pass_fail
    { level := VERBOSITIES.WARNING, file_failed := true,
      file_has_skips := true } "tests/test_mod.py" (by decide)]
  decide

/-- C8: at every verbosity threshold numerically greater than WARNING,
`report_file_start` and `report_file_end` write nothing and leave the
reporter's state — the per-file flags included — unchanged. -/
theorem file_events_silent (r : Reporter) (filename : String)
    (h : VERBOSITIES.WARNING < r.level) :
    report_file_start r filename = (r, []) ∧
    report_file_end r filename = (r, []) := by
  constructor
  · rw [report_file_start, if_neg (Nat.not_le.mpr h)]
  · rw [report_file_end, if_neg (Nat.not_le.mpr h)]

/-- Witness for C8 at threshold ERROR. -/
theorem file_events_silent_spot :
    report_file_start
      { level := VERBOSITIES.ERROR, file_failed := true,
        file_has_skips := false } "tests/test_mod.py" =
      ({ level := VERBOSITIES.ERROR, file_failed := true,
         file_has_skips := false }, []) ∧
    report_file_end
      { level := VERBOSITIES.ERROR, file_failed := true,
        file_has_skips := false } "tests/test_mod.py" =
      ({ level := VERBOSITIES.ERROR, file_failed := true,
         file_has_skips := false }, []) :=
  file_events_silent
    { level := VERBOSITIES.ERROR, file_failed := true,
      file_has_skips := false } "tests/test_mod.py" (by decide)

/-- C9: for every threshold ≤ ERROR, `report_session_end` emits the
`FAILURES` and `ERRORS` title separators unconditionally — for every
session, a session with zero failures and zero errors included. -/
theorem section_headers_unconditional (level : Nat) (s : Session)
    (h : level ≤ VERBOSITIES.ERROR) :
    Out.sep "=" (some "FAILURES") {} ∈ report_session_end level s ∧
    Out.sep "=" (some "ERRORS") {} ∈ report_session_end level s := by
  rw [report_session_end, if_pos h]
  constructor <;>
    simp [report_failures, report_errors, report_error_objects,
      List.mem_append, List.mem_cons]

/-- Witness for C9: an entirely empty session at threshold ERROR still
gets both section headers. -/
theorem section_headers_unconditional_spot :
    Out.sep "=" (some "FAILURES") {} ∈
      report_session_end VERBOSITIES.ERROR
        { results := { results := [] }, duration := 0 } ∧
    Out.sep "=" (some "ERRORS") {} ∈
      report_session_end VERBOSITIES.ERROR
        { results := { results := [] }, duration := 0 } :=
  section_headers_unconditional VERBOSITIES.ERROR
    { results := { results := [] }, duration := 0 } (by decide)

/-- C10: the code block is gated on the full multi-line excerpt
`code_string` alone: a frame with an empty `code_string` renders no code
block at any threshold, whatever its `code_line`; and at thresholds
numerically greater than WARNING a non-empty `code_string` renders the
single-line excerpt `code_line` as the one (hence last, `>`-marked)
line. -/
theorem code_block_gated_on_code_string (level : Nat) (frame : Frame) :
    (frame.code_string = "" → write_frame_code level frame = []) ∧
    (VERBOSITIES.WARNING < level → frame.code_string ≠ "" →
      write_frame_code level frame =
        [Out.write ">" { white := true, bold := true },
         Out.write frame.code_line { white := true, bold := true },
         Out.write "\n" {}]) := by
  constructor
  · intro h
    rw [write_frame_code, if_neg (by simp [h])]
  · intro hl hcs
    rw [write_frame_code, if_pos hcs, if_neg (Nat.not_le.mpr hl)]
    rfl

/-- Witness for C10 at threshold ERROR: an empty `code_string` with a
non-empty `code_line` renders nothing; a non-empty `code_string` renders
the single `code_line`. -/
theorem code_block_gated_on_code_string_spot :
    write_frame_code VERBOSITIES.ERROR
      { filename := "a.py", lineno := 1, code_line := "x = 1",
        code_string := "", locals := [], globals := [] } = [] ∧
    write_frame_code VERBOSITIES.ERROR
      { filename := "a.py", lineno := 1, code_line := "x = 1",
        code_string := "x = 1", locals := [], globals := [] } =
      [Out.write ">" { white := true, bold := true },
       Out.write "x = 1" { white := true, bold := true },
       Out.write "\n" {}] :=
  ⟨(code_block_gated_on_code_string VERBOSITIES.ERROR
      { filename := "a.py", lineno := 1, code_line := "x = 1",
        code_string := "", locals := [], globals := [] }).1 rfl,
   (code_block_gated_on_code_string VERBOSITIES.ERROR
      { filename := "a.py", lineno := 1, code_line := "x = 1",
        code_string := "x = 1", locals := [], globals := [] }).2
     (by decide) (by decide)⟩

/-- C1: in per-error detailed rendering the frames rendered are: none
when the error has no traceback, in which case nothing beyond the
group-level location separator is emitted for that error; only the
innermost (last) frame when the threshold is numerically greater than
WARNING; and every frame of the traceback, outermost first, each frame
after the first preceded by the thin `sep("- ")` rule, when the threshold
is ≤ WARNING — `framesOutermostFirst` spells that rendering out in the
spec's words. -/
theorem frames_selected_per_error (level : Nat) (e : ErrorRecord)
    (marker : String) :
    (e.traceback = none → report_error level e marker = []) ∧
    (∀ tb f, e.traceback = some tb → tb.frames.getLast? = some f →
      VERBOSITIES.WARNING < level →
      report_error level e marker =
        framesOutermostFirst (report_error_frame level e marker) [f]) ∧
    (∀ tb, e.traceback = some tb → level ≤ VERBOSITIES.WARNING →
      report_error level e marker =
        framesOutermostFirst (report_error_frame level e marker) tb.frames) := by
  refine ⟨?_, ?_, ?_⟩
  · intro h
    rw [report_error, h]
    rfl
  · intro tb f htb hlast hl
    rw [report_error, htb]
    simp only [if_pos hl, hlast]
    exact report_error_loop_eq_framesOutermostFirst level e marker [f]
  · intro tb htb hl
    rw [report_error, htb]
    simp only [if_neg (Nat.not_lt.mpr hl)]
    exact report_error_loop_eq_framesOutermostFirst level e marker tb.frames

/-- Witness for C1 at threshold ERROR: a two-frame traceback renders only
its innermost (last) frame. -/
theorem frames_selected_per_error_spot :
    report_error VERBOSITIES.ERROR
      { message := "boom",
        traceback := some { frames := [
          { filename := "outer.py", lineno := 10, code_line := "f()",
            code_string := "f()", locals := [], globals := [] },
          { filename := "inner.py", lineno := 2, code_line := "raise X",
            code_string := "raise X", locals := [], globals := [] }] } } "E" =
      framesOutermostFirst
        (report_error_frame VERBOSITIES.ERROR
          { message := "boom",
            traceback := some { frames := [
              { filename := "outer.py", lineno := 10, code_line := "f()",
                code_string := "f()", locals := [], globals := [] },
              { filename := "inner.py", lineno := 2, code_line := "raise X",
                code_string := "raise X", locals := [], globals := [] }] } } "E")
        [{ filename := "inner.py", lineno := 2, code_line := "raise X",
           code_string := "raise X", locals := [], globals := [] }] :=
  (frames_selected_per_error VERBOSITIES.ERROR
    { message := "boom",
      traceback := some { frames := [
        { filename := "outer.py", lineno := 10, code_line := "f()",
          code_string := "f()", locals := [], globals := [] },
        { filename := "inner.py", lineno := 2, code_line := "raise X",
          code_string := "raise X", locals := [], globals := [] }] } } "E").2.1
    { frames := [
      { filename := "outer.py", lineno := 10, code_line := "f()",
        code_string := "f()", locals := [], globals := [] },
      { filename := "inner.py", lineno := 2, code_line := "raise X",
        code_string := "raise X", locals := [], globals := [] }] }
    { filename := "inner.py", lineno := 2, code_line := "raise X",
      code_string := "raise X", locals := [], globals := [] }
    rfl (by decide) (by decide)

/-- C2: `report_session_end` chooses exactly one of the two mutually
exclusive summary strategies — the detailed FAILURES-then-ERRORS sections
when threshold ≤ ERROR, the concise listing when
ERROR < threshold ≤ CRITICAL; in the concise form each result with any
failures or errors contributes the single line
`<location>: <n> errors <m> failures`, the errors clause omitted when the
error count is zero, the failures clause omitted when the failure count
is zero, and a result with neither failures nor errors contributes
nothing at all. -/
theorem summary_strategy_choice (level : Nat) (s : Session) :
    (level ≤ VERBOSITIES.ERROR →
      report_session_end level s =
        (if VERBOSITIES.WARNING < level then [Out.write "\n" {}] else []) ++
        report_failures level s ++ report_errors level s ++
        [session_end_sep s]) ∧
    (VERBOSITIES.ERROR < level → level ≤ VERBOSITIES.CRITICAL →
      report_session_end level s =
        Out.write "\n" {} :: report_failures_and_errors_concise s ++
        [session_end_sep s]) ∧
    (report_failures_and_errors_concise s =
      s.results.iter_all_results.flatMap concise_result) ∧
    (∀ r : TestResult,
      (r.get_errors = [] → r.get_failures = [] → concise_result r = []) ∧
      textOf (concise_result r) =
        (if r.get_errors = [] ∧ r.get_failures = [] then ""
         else
           get_location r ++ ":" ++
           (if r.get_errors = [] then ""
            else " " ++ natDecimal r.get_errors.length ++ " errors") ++
           (if r.get_failures = [] then ""
            else " " ++ natDecimal r.get_failures.length ++ " failures") ++
           "\n")) := by
  refine ⟨?_, ?_, rfl, ?_⟩
  · intro h
    rw [report_session_end, if_pos h]
    simp [List.append_assoc]
  · intro h1 h2
    have hW : VERBOSITIES.WARNING < level :=
      lt_trans (by decide) h1
    rw [report_session_end, if_neg (Nat.not_le.mpr h1), if_pos h2, if_pos hW]
    rfl
  · intro r
    constructor
    · intro he hf
      simp [concise_result, he, hf]
    · by_cases he : r.get_errors = [] <;> by_cases hf : r.get_failures = [] <;>
        [skip; skip; skip; skip] <;>
        simp [concise_result, he, hf, textOf, Out.text] <;>
        apply String.ext <;>
        simp [String.data_join, String.data_append]

/-- Witness for C2 at threshold CRITICAL: a session whose only result has
two errors and one failure takes the concise branch, and a result with
neither errors nor failures contributes no concise line. -/
theorem summary_strategy_choice_spot :
    report_session_end VERBOSITIES.CRITICAL
      { results := { results := [
          { test_metadata := some { fqn := "pkg.test_a" },
            errors := [{ message := "e1", traceback := none },
                       { message := "e2", traceback := none }],
            failures := [{ message := "f1", traceback := none }] }] },
        duration := 0 } =
      Out.write "\n" {} ::
      report_failures_and_errors_concise
        { results := { results := [
            { test_metadata := some { fqn := "pkg.test_a" },
              errors := [{ message := "e1", traceback := none },
                         { message := "e2", traceback := none }],
              failures := [{ message := "f1", traceback := none }] }] },
          duration := 0 } ++
      [session_end_sep
        { results := { results := [
            { test_metadata := some { fqn := "pkg.test_a" },
              errors := [{ message := "e1", traceback := none },
                         { message := "e2", traceback := none }],
              failures := [{ message := "f1", traceback := none }] }] },
          duration := 0 }] ∧
    concise_result
      { test_metadata := some { fqn := "pkg.test_b" },
        errors := [], failures := [] } = [] :=
  ⟨(summary_strategy_choice VERBOSITIES.CRITICAL
      { results := { results := [
          { test_metadata := some { fqn := "pkg.test_a" },
            errors := [{ message := "e1", traceback := none },
                       { message := "e2", traceback := none }],
            failures := [{ message := "f1", traceback := none }] }] },
        duration := 0 }).2.1 (by decide) (by decide),
   ((summary_strategy_choice VERBOSITIES.CRITICAL
      { results := { results := [] }, duration := 0 }).2.2.2
      { test_metadata := some { fqn := "pkg.test_b" },
        errors := [], failures := [] }).1 rfl rfl⟩

/-- C4: for every session and threshold, the closing chunk written by
`report_session_end` is the `"="` separator built by `session_end_sep`;
with zero failures and zero errors (`is_success` true) its title is bold
green `"Session ended."` plus the duration text and the word `failures`
never occurs in it, otherwise its title is bold red
`"Session ended. {F} failures, {E} errors."` plus the duration text, with
F and E the session's decimal failure and error counts. -/
theorem closing_separator_outcome (level : Nat) (s : Session) :
    (∃ pre, report_session_end level s = pre ++ [session_end_sep s]) ∧
    (s.results.is_success = true →
      session_end_sep s =
        Out.sep "="
          (some ("Session ended." ++ " Total duration: " ++
            format_duration s.duration))
          { bold := true, green := true }) ∧
    (s.results.is_success = true →
      ∀ pre post : String,
        "Session ended." ++ " Total duration: " ++ format_duration s.duration ≠
          pre ++ "failures" ++ post) ∧
    (s.results.is_success = false →
      session_end_sep s =
        Out.sep "="
          (some ("Session ended." ++ " " ++
            natDecimal s.results.get_num_failures ++ " failures, " ++
            natDecimal s.results.get_num_errors ++ " errors." ++
            " Total duration: " ++ format_duration s.duration))
          { bold := true, red := true }) ∧
    (s.results.is_success = true ↔
      s.results.get_num_failures = 0 ∧ s.results.get_num_errors = 0) := by
  refine ⟨?_, ?_, ?_, ?_, ?_⟩
  · refine ⟨(if VERBOSITIES.WARNING < level then [Out.write "\n" {}] else []) ++
      (if level ≤ VERBOSITIES.ERROR then
        report_failures level s ++ report_errors level s
       else if level ≤ VERBOSITIES.CRITICAL then
        report_failures_and_errors_concise s
       else []), ?_⟩
    rw [report_session_end]
  · intro h
    simp [session_end_sep, h]
  · intro _ pre post heq
    have hmem : 'f' ∈
        ("Session ended." ++ " Total duration: " ++
          format_duration s.duration).data := by
      rw [heq]
      simp only [String.data_append, List.mem_append]
      left
      right
      decide
    simp only [String.data_append, List.mem_append] at hmem
    rcases hmem with (hm | hm) | hm
    · exact absurd hm (by decide)
    · exact absurd hm (by decide)
    · rcases format_duration_all s.duration 'f' hm with h' | h' | h' <;>
        simp at h'
  · intro h
    simp [session_end_sep, h]
  · simp [SessionResults.is_success, Bool.and_eq_true, beq_iff_eq]

/-- Witness for C4: a session with no results closes green with no
counts; a session with one failure and two errors closes red with the
counts in the title. -/
theorem closing_separator_outcome_spot :
    session_end_sep { results := { results := [] }, duration := 0 } =
      Out.sep "="
        (some ("Session ended." ++ " Total duration: " ++
          format_duration (0 : ℚ)))
        { bold := true, green := true } ∧
    session_end_sep
      { results := { results := [
          { test_metadata := some { fqn := "pkg.test_a" },
            errors := [{ message := "e1", traceback := none },
                       { message := "e2", traceback := none }],
            failures := [{ message := "f1", traceback := none }] }] },
        duration := 0 } =
      Out.sep "="
        (some ("Session ended." ++ " " ++
          natDecimal (SessionResults.get_num_failures
            { results := [
              { test_metadata := some { fqn := "pkg.test_a" },
                errors := [{ message := "e1", traceback := none },
                           { message := "e2", traceback := none }],
                failures := [{ message := "f1", traceback := none }] }] }) ++
          " failures, " ++
          natDecimal (SessionResults.get_num_errors
            { results := [
              { test_metadata := some { fqn := "pkg.test_a" },
                errors := [{ message := "e1", traceback := none },
                           { message := "e2", traceback := none }],
                failures := [{ message := "f1", traceback := none }] }] }) ++
          " errors." ++ " Total duration: " ++ format_duration (0 : ℚ)))
        { bold := true, red := true } :=
  ⟨(closing_separator_outcome VERBOSITIES.CRITICAL
      { results := { results := [] }, duration := 0 }).2.1 (by decide),
   (closing_separator_outcome VERBOSITIES.CRITICAL
      { results := { results := [
          { test_metadata := some { fqn := "pkg.test_a" },
            errors := [{ message := "e1", traceback := none },
                       { message := "e2", traceback := none }],
            failures := [{ message := "f1", traceback := none }] }] },
        duration := 0 }).2.2.2.1 (by decide)⟩

/-- C5: for every non-negative duration the rendered string is the
duration floored to whole seconds, split as hours : minutes : seconds,
each field zero-padded to at least two digits; 3725.9 seconds render as
`"01:02:05"`, and a 100-hour duration keeps all three hour digits. -/
theorem duration_format_floor :
    (∀ d : ℚ, 0 ≤ d →
      format_duration d =
        pad02 ((⌊d⌋₊ / 3600 : ℕ) : ℤ) ++ ":" ++
        pad02 ((⌊d⌋₊ / 60 % 60 : ℕ) : ℤ) ++ ":" ++
        pad02 ((⌊d⌋₊ % 60 : ℕ) : ℤ)) ∧
    format_duration (37259 / 10 : ℚ) = "01:02:05" ∧
    format_duration (360000 : ℚ) = "100:00:00" := by
  have core : ∀ d : ℚ, 0 ≤ d →
      format_duration d =
        pad02 ((⌊d⌋₊ / 3600 : ℕ) : ℤ) ++ ":" ++
        pad02 ((⌊d⌋₊ / 60 % 60 : ℕ) : ℤ) ++ ":" ++
        pad02 ((⌊d⌋₊ % 60 : ℕ) : ℤ) := by
    intro d hd
    have hd60 : (0:ℚ) ≤ d / 60 := by positivity
    have h1 : pyInt (d / 60 / 60) = ((⌊d⌋₊ / 3600 : ℕ) : ℤ) := by
      rw [pyInt_div_sixty (d / 60) hd60]
      norm_cast
      rw [Nat.floor_div_ofNat d 60]
      exact Nat.div_div_eq_div_mul _ _ _
    have h2 : pyInt (pyMod (d / 60) 60) = ((⌊d⌋₊ / 60 % 60 : ℕ) : ℤ) := by
      rw [pyInt_pyMod_sixty (d / 60) hd60, Nat.floor_div_ofNat d 60]
    have h3 := pyInt_pyMod_sixty d hd
    simp only [format_duration]
    rw [h1, h2, h3]
  refine ⟨core, ?_, ?_⟩
  · rw [core (37259 / 10) (by norm_num)]
    have hfl : ⌊(37259 / 10 : ℚ)⌋₊ = 3725 := by
      rw [show ((37259 : ℚ) / 10) = ((37259 : ℕ) : ℚ) / ((10 : ℕ) : ℚ) by
        norm_num]
      rw [Nat.floor_div_nat, Nat.floor_natCast]
    rw [hfl]
    decide
  · rw [core 360000 (by norm_num)]
    have hfl : ⌊(360000 : ℚ)⌋₊ = 360000 := Nat.floor_ofNat 360000
    rw [hfl]
    decide

/-- Witness for C5 at 3725.9 seconds. -/
theorem duration_format_floor_spot :
    (0 : ℚ) ≤ 37259 / 10 ∧
    format_duration (37259 / 10 : ℚ) =
      pad02 ((⌊(37259 / 10 : ℚ)⌋₊ / 3600 : ℕ) : ℤ) ++ ":" ++
      pad02 ((⌊(37259 / 10 : ℚ)⌋₊ / 60 % 60 : ℕ) : ℤ) ++ ":" ++
      pad02 ((⌊(37259 / 10 : ℚ)⌋₊ % 60 : ℕ) : ℤ) :=
  ⟨by norm_num, duration_format_floor.1 (37259 / 10) (by norm_num)⟩

end ConsoleReporter
